import Mathlib

/-!
Shallow embedding of `src/main.rs` of the poc-rust-ipp repository: a small
program that converts an image (or passes through a PDF) and submits it to an
IPP printer as a Print-Job request.

Pure data-assembly parts of the program (constants, the attribute list built
in `main`, the page geometry chosen by `convert_image_to_pdf`, the payload
construction of `create_payload_from_pdf`, the error propagation of
`get_printer_attributes` and `main`) are translated directly from the source.
External effects (the transport, the file system, the image decoder and the
printpdf serializer) are passed in explicitly as oracle values or function
parameters.  Parts implemented by the external `ipp` crate (the wire encoding
and the status-code predicate) are modelled from the spec and marked as such
in their doc comments.
-/

namespace PocRustIpp

/-- IPP attribute values, the `IppValue` variants of the `ipp` crate that
`src/main.rs` uses (`Integer`, `Enum`, `Keyword`, `MimeMediaType`,
`Collection`).  A Rust `BTreeMap<String, IppValue>` iterates its entries in
sorted key order, so a `Collection` is modelled as the association list of its
entries in that order. -/
inductive IppValue where
  | Integer : Int → IppValue
  | Enum : Int → IppValue
  | Keyword : String → IppValue
  | MimeMediaType : String → IppValue
  | Collection : List (String × IppValue) → IppValue
deriving Repr

/-- Constant from `src/main.rs:11`: `PAGE_WIDTH_MM = 101.6` (4 inches). -/
def PAGE_WIDTH_MM : ℚ := 101.6

/-- Constant from `src/main.rs:12`: `PAGE_HEIGHT_MM = 152.4` (6 inches). -/
def PAGE_HEIGHT_MM : ℚ := 152.4

/-- Constant from `src/main.rs:14`: the legacy media keyword for 4x6 output. -/
def DEFAULT_MEDIA : String := "w288h432"

/-- Constant from `src/main.rs:15`. -/
def PRINT_COLOR_MODE : String := "color"

/-- Constant from `src/main.rs:16`: print quality 4 (normal). -/
def PRINT_QUALITY : Int := 4

/-- `src/main.rs:53`: `let x_dimension = (PAGE_WIDTH_MM * 100.0).round() as i32`.
The `f32` computation in the source also evaluates to exactly 10160: the
nearest `f32` to `101.6 * 100` rounds to the integer 10160. -/
def x_dimension : Int := round (PAGE_WIDTH_MM * 100)

/-- `src/main.rs:54`: `let y_dimension = (PAGE_HEIGHT_MM * 100.0).round() as i32`. -/
def y_dimension : Int := round (PAGE_HEIGHT_MM * 100)

/-- `src/main.rs:55-61`: the `media-size` collection (BTreeMap in sorted key
order) followed by the `media-col` collection wrapping it. -/
def media_size_map : List (String × IppValue) :=
  [("x-dimension", IppValue.Integer x_dimension),
   ("y-dimension", IppValue.Integer y_dimension)]

/-- `src/main.rs:59-61`: the `media-col` value. -/
def media_col : IppValue :=
  IppValue.Collection [("media-size", IppValue.Collection media_size_map)]

/-- The `.attribute(...)` calls of `src/main.rs:67-81`, in source order: the
operation attributes `main` adds to the Print-Job builder beyond the printer
URI, user name and job title. -/
def mainJobAttributes : List (String × IppValue) :=
  [("document-format", IppValue.MimeMediaType "application/pdf"),
   ("media", IppValue.Keyword DEFAULT_MEDIA),
   ("media-col", media_col),
   ("print-scaling", IppValue.Keyword "auto"),
   ("print-color-mode", IppValue.Keyword PRINT_COLOR_MODE),
   ("print-quality", IppValue.Enum PRINT_QUALITY)]

/-- Inputs that determine the Print-Job operation built at `src/main.rs:64-83`:
the printer URI, the document bytes placed in the payload, the input file name
(used as the job title), the value of the `USER` environment variable
(`none` when unset or not valid Unicode, the two error cases of `env::var`),
and the request id the `ipp` crate stamps on the message. -/
structure PrintJobInputs where
  printerUri : String
  documentBytes : List Nat
  fileName : String
  userEnv : Option String
  requestId : Nat
deriving DecidableEq, Repr

/-- The Print-Job request as assembled by `main` (`src/main.rs:64-83`): the
builder fixes the operation code, carries URI / user name / job title, the six
extra operation attributes, and the document bytes as the trailing payload.
The `ipp` crate's builder defaults to IPP version 1.1. -/
structure IppRequestModel where
  versionMajor : Nat
  versionMinor : Nat
  opCode : Nat
  requestId : Nat
  printerUri : String
  userName : String
  jobTitle : String
  extraAttributes : List (String × IppValue)
  documentBytes : List Nat
deriving Repr

/-- `src/main.rs:64-83`: build the Print-Job operation.  The user name is
`env::var("USER").unwrap_or_else(|_| "noname")` (`src/main.rs:65`), the job
title is the input file name (`src/main.rs:66`), and the extra attributes are
exactly `mainJobAttributes`.  0x0002 is the IPP Print-Job operation code. -/
def buildPrintJobRequest (i : PrintJobInputs) : IppRequestModel :=
  { versionMajor := 1
    versionMinor := 1
    opCode := 0x0002
    requestId := i.requestId
    printerUri := i.printerUri
    userName := i.userEnv.getD "noname"
    jobTitle := i.fileName
    extraAttributes := mainJobAttributes
    documentBytes := i.documentBytes }

/-- The media-size dimensions of `src/main.rs:53-54` evaluate to 10160 and
15240 hundredths of a millimeter. -/
theorem x_dimension_eq : x_dimension = 10160 := by
  unfold x_dimension PAGE_WIDTH_MM
  norm_num [round_eq]

theorem y_dimension_eq : y_dimension = 15240 := by
  unfold y_dimension PAGE_HEIGHT_MM
  norm_num [round_eq]

/-- A decoded raster image as produced by the external image decoder
(`ImageReader::open(..).decode()` at `src/main.rs:141`): pixel dimensions plus
the interleaved RGB8 bytes of `img.to_rgb8().into_raw()` (`src/main.rs:152`). -/
structure ImageInfo where
  width : Nat
  height : Nat
  rgbData : List Nat
deriving DecidableEq, Repr

/-- Color space of the embedded image; `src/main.rs:156` always uses RGB. -/
inductive ColorSpace where
  | Rgb
deriving DecidableEq, Repr

/-- The `printpdf` `ImageTransform` as filled in at `src/main.rs:168-175`:
translation in millimeters, unit-free scale factors, and the dpi used to turn
pixels into page units. -/
structure ImageTransform where
  translateXMm : ℚ
  translateYMm : ℚ
  scaleX : ℚ
  scaleY : ℚ
  dpi : ℚ
deriving DecidableEq, Repr

/-- The image XObject built at `src/main.rs:153-163`. -/
structure ImageXObject where
  width : Nat
  height : Nat
  colorSpace : ColorSpace
  bitsPerComponent : Nat
  interpolate : Bool
  imageData : List Nat
deriving DecidableEq, Repr

/-- The single-page document assembled by `convert_image_to_pdf`: the page
size in millimeters passed to `PdfDocument::new` and the image placed on the
single layer with its transform. -/
structure PdfPage where
  pageWidthMm : ℚ
  pageHeightMm : ℚ
  image : ImageXObject
  transform : ImageTransform
deriving DecidableEq, Repr

/-- `src/main.rs:139-181`: `convert_image_to_pdf` after the external decode
step.  The page is always `PAGE_WIDTH_MM x PAGE_HEIGHT_MM`
(`src/main.rs:143-148`), the image keeps its native pixel dimensions
(`src/main.rs:154-155`), and the transform is the literal
translate `(Mm 0.0, Mm 0.0)`, scale `(1.0, 1.0)`, dpi `300.0` of
`src/main.rs:168-175`.  The function takes no placement-strategy argument:
its only input is the decoded image. -/
def convert_image_to_pdf (img : ImageInfo) : PdfPage :=
  { pageWidthMm := PAGE_WIDTH_MM
    pageHeightMm := PAGE_HEIGHT_MM
    image :=
      { width := img.width
        height := img.height
        colorSpace := ColorSpace.Rgb
        bitsPerComponent := 8
        interpolate := true
        imageData := img.rgbData }
    transform :=
      { translateXMm := 0
        translateYMm := 0
        scaleX := 1
        scaleY := 1
        dpi := 300 } }

/-- The Fixed-fit transform: origin translation at unit scale, 300 dpi. -/
def fixedTransform : ImageTransform :=
  { translateXMm := 0, translateYMm := 0, scaleX := 1, scaleY := 1, dpi := 300 }

/-- Modelled from the spec: the Centered-fit placement strategy (spec section
4.3), which the source does not implement.  Page size constant, scale
`min(pageWidth/imgWidth, pageHeight/imgHeight)` of the image's native size at
300 dpi, image centered via `translate = (pageDimension - scaledImageDimension)/2`. -/
def centeredFitTransform (img : ImageInfo) : ImageTransform :=
  let iw : ℚ := (img.width : ℚ) / 300 * 25.4
  let ih : ℚ := (img.height : ℚ) / 300 * 25.4
  let s : ℚ := min (PAGE_WIDTH_MM / iw) (PAGE_HEIGHT_MM / ih)
  { translateXMm := (PAGE_WIDTH_MM - s * iw) / 2
    translateYMm := (PAGE_HEIGHT_MM - s * ih) / 2
    scaleX := s
    scaleY := s
    dpi := 300 }

/-- Modelled from the spec: the Native-size-page strategy (spec section 4.3),
which the source does not implement.  The page is sized exactly to the
image's native millimeter size at 300 dpi. -/
def nativePageSizeMm (img : ImageInfo) : ℚ × ℚ :=
  ((img.width : ℚ) / 300 * 25.4, (img.height : ℚ) / 300 * 25.4)

/-- Modelled from the spec: `is_success` of the `ipp` crate's `StatusCode`
(library code, not part of this repository's sources).  Per the spec, the
high byte of the 16-bit status code distinguishes the success range from the
client-error/server-error ranges, as a pure function of the code. -/
def is_success (code : Nat) : Bool := code / 256 == 0

/-- Rust `str::ends_with` for the string patterns used at `src/main.rs:34-36`.
For the ASCII literal patterns of the source, the byte-suffix test of Rust
coincides with this character-suffix test. -/
def ends_with (s pat : String) : Bool := pat.data.isSuffixOf s.data

/-- The file-name dispatch condition of `src/main.rs:34-37`: the input is
treated as an image exactly when its name ends in `.jpg`, `.jpeg` or `.png`. -/
def isImageFile (name : String) : Bool :=
  ends_with name ".jpg" || ends_with name ".jpeg" || ends_with name ".png"

/-- `src/main.rs:34-46`: choose the document bytes.  An image file name
selects the converted PDF bytes (and a conversion is performed, second
component `true`); any other name selects the raw file contents unchanged
(no conversion, second component `false`). -/
def mainDocumentBytes (fileName : String) (fileContents convertedPdf : List Nat) :
    List Nat × Bool :=
  if isImageFile fileName then (convertedPdf, true) else (fileContents, false)

/-- An explicit file-system state: newest writes first, path to contents. -/
def FileSystem : Type := List (String × List Nat)

/-- `File::create` followed by `write_all`: the path now holds the data. -/
def fsWrite (fs : FileSystem) (path : String) (data : List Nat) : FileSystem :=
  (path, data) :: fs

/-- `File::open` followed by reading to the end: the most recent contents. -/
def fsRead (fs : FileSystem) (path : String) : Option (List Nat) :=
  (fs.find? (fun e => e.1 == path)).map (fun e => e.2)

/-- An `IppPayload`: the byte sequence the transport streams as the request
body, whether it wraps an in-memory `Cursor` or an opened file. -/
structure IppPayloadModel where
  bytes : List Nat
deriving DecidableEq, Repr

/-- Errors the program surfaces, each carrying its diagnostic: transport
failures of `client.send`, the non-success status error built at
`src/main.rs:119-123`, and I/O failures. -/
inductive SessionError where
  | transport : String → SessionError
  | nonSuccessStatus : Nat → SessionError
  | io : String → SessionError
deriving DecidableEq, Repr

/-- A decoded IPP response: the 16-bit status code of its header and its
attribute groups flattened to name/value pairs. -/
structure IppResponseModel where
  statusCode : Nat
  attributes : List (String × IppValue)
deriving Repr

/-- The transport oracle: what `client.send` returns for the single
Get-Printer-Attributes request and for the single Print-Job request. -/
structure Transport where
  attrResponse : Except String IppResponseModel
  jobResponse : Except String IppResponseModel

/-- `src/main.rs:100-111`: `create_payload_from_pdf`.  With `use_file` the
PDF bytes are written to `tmp.pdf` and the payload is the reopened file;
otherwise the payload wraps an in-memory copy of the bytes. -/
def create_payload_from_pdf (pdf_data : List Nat) (use_file : Bool) (fs : FileSystem) :
    Except SessionError (IppPayloadModel × FileSystem) :=
  if use_file then
    let fs' := fsWrite fs "tmp.pdf" pdf_data
    match fsRead fs' "tmp.pdf" with
    | some bytes => Except.ok (⟨bytes⟩, fs')
    | none => Except.error (SessionError.io "could not open tmp.pdf")
  else
    Except.ok (⟨pdf_data⟩, fs)

/-- `src/main.rs:114-126`: `get_printer_attributes` sends one
Get-Printer-Attributes operation; a transport error propagates via `?`, a
non-success status code becomes an error carrying that code, and otherwise
the response attributes are returned. -/
def get_printer_attributes (sendResult : Except String IppResponseModel) :
    Except SessionError (List (String × IppValue)) :=
  match sendResult with
  | Except.error e => Except.error (SessionError.transport e)
  | Except.ok r =>
    if is_success r.statusCode then Except.ok r.attributes
    else Except.error (SessionError.nonSuccessStatus r.statusCode)

/-- The program inputs of one run of `main`: command-line printer URI and
file name, the named file's contents, the image the external decoder yields
for it (used only on the image branch), the `USER` environment value, and
the request id stamped by the `ipp` crate. -/
structure MainInputs where
  printerUri : String
  fileName : String
  fileContents : List Nat
  decodedImage : ImageInfo
  userEnv : Option String
  requestId : Nat

/-- The observable trace of one run of `main`: its result (final Print-Job
status code or the propagated error), how many Get-Printer-Attributes
queries and Print-Job requests were put on the wire, whether an
image-to-PDF conversion ran, whether the Print-Job operation was built, and
the built request if any. -/
structure MainTrace where
  result : Except SessionError Nat
  attrQueriesSent : Nat
  printJobsSent : Nat
  conversionPerformed : Bool
  printJobBuilt : Bool
  sentJobRequest : Option IppRequestModel

/-- `src/main.rs:18-96`: one run of `main` after argument parsing, with the
external effects passed in: `save` is the `printpdf` serializer
(`doc.save`, `src/main.rs:179`), `t` the transport, `fs` the file system.
Mirrors the source order: the unconditional `get_printer_attributes` call
(`src/main.rs:29`) whose error propagates via `?`; the file-name dispatch
(`src/main.rs:34-46`); payload creation with the hard-coded
`use_file = false` (`src/main.rs:49-50`); building the Print-Job operation
(`src/main.rs:64-83`); the single `client.send` (`src/main.rs:85`) whose
error propagates via `?`; and finally printing the response status without
treating a non-success job status as an error (`src/main.rs:87-95`). -/
def runMain (save : PdfPage → List Nat) (inp : MainInputs) (t : Transport)
    (fs : FileSystem) : MainTrace :=
  match get_printer_attributes t.attrResponse with
  | Except.error e =>
    { result := Except.error e, attrQueriesSent := 1, printJobsSent := 0
      conversionPerformed := false, printJobBuilt := false, sentJobRequest := none }
  | Except.ok _attrs =>
    let conv := mainDocumentBytes inp.fileName inp.fileContents
      (save (convert_image_to_pdf inp.decodedImage))
    match create_payload_from_pdf conv.1 false fs with
    | Except.error e =>
      { result := Except.error e, attrQueriesSent := 1, printJobsSent := 0
        conversionPerformed := conv.2, printJobBuilt := false, sentJobRequest := none }
    | Except.ok (payload, _fs') =>
      let req := buildPrintJobRequest
        ⟨inp.printerUri, payload.bytes, inp.fileName, inp.userEnv, inp.requestId⟩
      match t.jobResponse with
      | Except.error e =>
        { result := Except.error (SessionError.transport e), attrQueriesSent := 1
          printJobsSent := 1, conversionPerformed := conv.2, printJobBuilt := true
          sentJobRequest := some req }
      | Except.ok r =>
        { result := Except.ok r.statusCode, attrQueriesSent := 1, printJobsSent := 1
          conversionPerformed := conv.2, printJobBuilt := true
          sentJobRequest := some req }

/-- Big-endian 16-bit encoding of a length or code. -/
def u16be (n : Nat) : List Nat := [n / 256 % 256, n % 256]

/-- Big-endian 32-bit encoding. -/
def u32be (n : Nat) : List Nat :=
  [n / 16777216 % 256, n / 65536 % 256, n / 256 % 256, n % 256]

/-- Big-endian 32-bit two's-complement encoding of a signed integer. -/
def i32be (n : Int) : List Nat := u32be (n % 4294967296).toNat

/-- UTF-8 bytes of a string. -/
def strBytes (s : String) : List Nat := s.toUTF8.toList.map (fun b => b.toNat)

/-- One attribute-with-one-value unit of the IPP wire format:
`[value-tag][name-length][name][value-length][value]`. -/
def encAttrWith (tag : Nat) (name : String) (value : List Nat) : List Nat :=
  tag :: (u16be (strBytes name).length ++ strBytes name ++
    u16be value.length ++ value)

/-- Modelled from the spec: the value encoding of the IPP wire format
implemented by the external `ipp` crate (spec section 4.1).  Integers and
enums are 4-byte big-endian signed (tags 0x21/0x23), keywords and mime
media types are their text bytes (tags 0x44/0x49), and a collection is a
`begCollection` unit (0x34), then for each member a `memberAttrName` unit
(0x4A) carrying the member name as its value followed by the member value
with an empty name, then an `endCollection` unit (0x37) with empty name and
value. -/
def encodeValue (name : String) : IppValue → List Nat
  | IppValue.Integer n => encAttrWith 0x21 name (i32be n)
  | IppValue.Enum n => encAttrWith 0x23 name (i32be n)
  | IppValue.Keyword s => encAttrWith 0x44 name (strBytes s)
  | IppValue.MimeMediaType s => encAttrWith 0x49 name (strBytes s)
  | IppValue.Collection members =>
    encAttrWith 0x34 name [] ++
    (members.attach.map (fun m =>
      match m with
      | ⟨(n, v), _hm⟩ => encAttrWith 0x4A "" (strBytes n) ++ encodeValue "" v)).flatten ++
    encAttrWith 0x37 "" []
termination_by v => sizeOf v
decreasing_by
  have h := List.sizeOf_lt_of_mem _hm
  simp at h ⊢
  omega

/-- A text-valued attribute unit with the given value tag. -/
def encodeStringAttr (tag : Nat) (name val : String) : List Nat :=
  encAttrWith tag name (strBytes val)

/-- Modelled from the spec: the full request encoding of the IPP wire format
implemented by the external `ipp` crate (spec section 4.1): 2-byte version,
2-byte operation code, 4-byte request id, the operation-attributes group
(delimiter 0x01) holding charset, natural language, printer URI, requesting
user name and job name followed by the extra attributes, the
end-of-attributes tag 0x03, then the document bytes as the trailing body. -/
def encodeIppRequest (r : IppRequestModel) : List Nat :=
  [r.versionMajor, r.versionMinor] ++ u16be r.opCode ++ u32be r.requestId ++
  [0x01] ++
  encodeStringAttr 0x47 "attributes-charset" "utf-8" ++
  encodeStringAttr 0x48 "attributes-natural-language" "en" ++
  encodeStringAttr 0x45 "printer-uri" r.printerUri ++
  encodeStringAttr 0x42 "requesting-user-name" r.userName ++
  encodeStringAttr 0x42 "job-name" r.jobTitle ++
  (r.extraAttributes.map (fun a => encodeValue a.1 a.2)).flatten ++
  [0x03] ++ r.documentBytes

/-! Concrete sample inputs used to instantiate the theorems below. -/

/-- A 600 x 600 pixel image (2 x 2 inches at 300 dpi). -/
def sampleImage : ImageInfo := ⟨600, 600, []⟩

/-- The serializer oracle standing for `doc.save`: some fixed PDF bytes. -/
def sampleSave : PdfPage → List Nat := fun _ => [0x25, 0x50, 0x44, 0x46]

/-- A run on an image input file. -/
def sampleInputs : MainInputs :=
  ⟨"ipp://printer.local/ipp/print", "photo.jpg", [], sampleImage, some "alice", 1⟩

/-- A run on a non-image input file with five bytes of content. -/
def samplePdfInputs : MainInputs :=
  ⟨"ipp://printer.local/ipp/print", "document.pdf",
   [0x25, 0x50, 0x44, 0x46, 0x2D], sampleImage, some "alice", 1⟩

/-- Inputs determining one Print-Job build. -/
def sampleJobInputs : PrintJobInputs :=
  ⟨"ipp://printer.local/ipp/print", [0x25, 0x50, 0x44, 0x46], "photo.jpg",
   some "alice", 1⟩

/-- Transport whose Get-Printer-Attributes send fails. -/
def transportAttrFail : Transport :=
  ⟨Except.error "connection refused", Except.ok ⟨0, []⟩⟩

/-- Transport answering Get-Printer-Attributes with server-error 0x0500. -/
def transportAttrErrorStatus : Transport :=
  ⟨Except.ok ⟨0x0500, []⟩, Except.ok ⟨0, []⟩⟩

/-- Transport whose Print-Job send fails. -/
def transportJobFail : Transport :=
  ⟨Except.ok ⟨0, []⟩, Except.error "connection reset"⟩

/-- Transport answering both operations with successful-ok. -/
def transportOk : Transport := ⟨Except.ok ⟨0, []⟩, Except.ok ⟨0, []⟩⟩

/-- Every run of `main` sends exactly one Get-Printer-Attributes query. -/
theorem runMain_attrQueries (save : PdfPage → List Nat) (inp : MainInputs)
    (t : Transport) (fs : FileSystem) :
    (runMain save inp t fs).attrQueriesSent = 1 := by
  rcases t with ⟨ta, tj⟩
  rcases ta with e | r
  · rfl
  · by_cases hs : is_success r.statusCode
    · rcases tj with e2 | r2 <;>
        simp [runMain, get_printer_attributes, hs, create_payload_from_pdf]
    · simp [runMain, get_printer_attributes, hs]

/-- C1: For every input image, the generated PDF uses the Fixed-fit
placement: the page size is the constant 101.6 mm x 152.4 mm (4x6 inches)
and the image is placed at translate (0 mm, 0 mm) with scale 1.0 at 300 dpi
while keeping its native pixel dimensions, regardless of what those
dimensions are. -/
theorem fixed_fit_placement (img : ImageInfo) :
    (convert_image_to_pdf img).pageWidthMm = 101.6 ∧
    (convert_image_to_pdf img).pageHeightMm = 152.4 ∧
    (convert_image_to_pdf img).transform = fixedTransform ∧
    (convert_image_to_pdf img).image.width = img.width ∧
    (convert_image_to_pdf img).image.height = img.height :=
  ⟨rfl, rfl, rfl, rfl, rfl⟩

/-- C2: Every Print-Job request the program builds carries, in addition to
printer URI, user name and job title, exactly the operation attributes
`document-format = application/pdf` (mime-media-type), `media = "w288h432"`
(keyword), `media-col` holding a `media-size` collection with
`x-dimension = 10160` and `y-dimension = 15240` (hundredths of a
millimeter), `print-scaling = "auto"` (keyword), `print-color-mode =
"color"` (keyword) and `print-quality = 4` (enum). -/
theorem print_job_attributes_exact (i : PrintJobInputs) :
    (buildPrintJobRequest i).extraAttributes =
      [("document-format", IppValue.MimeMediaType "application/pdf"),
       ("media", IppValue.Keyword "w288h432"),
       ("media-col", IppValue.Collection
         [("media-size", IppValue.Collection
           [("x-dimension", IppValue.Integer 10160),
            ("y-dimension", IppValue.Integer 15240)])]),
       ("print-scaling", IppValue.Keyword "auto"),
       ("print-color-mode", IppValue.Keyword "color"),
       ("print-quality", IppValue.Enum 4)] := by
  show mainJobAttributes = _
  simp [mainJobAttributes, media_col, media_size_map, DEFAULT_MEDIA,
    PRINT_COLOR_MODE, PRINT_QUALITY, x_dimension_eq, y_dimension_eq]

/-- C3, counterexample: no caller input ever makes the embedder apply a
Centered-fit placement that differs from the hard-coded Fixed-fit one, and
for the 600 x 600 image the two placements do differ, so the Centered-fit
strategy is not selectable by any caller input. -/
theorem placement_strategy_not_selectable :
    (¬ ∃ img : ImageInfo,
        (convert_image_to_pdf img).transform = centeredFitTransform img ∧
        centeredFitTransform img ≠ fixedTransform) ∧
    centeredFitTransform ⟨600, 600, []⟩ ≠ fixedTransform := by
  constructor
  · rintro ⟨img, h1, h2⟩
    exact h2 h1.symm
  · intro h
    have hs := congrArg ImageTransform.scaleX h
    simp [centeredFitTransform, fixedTransform, PAGE_WIDTH_MM,
      PAGE_HEIGHT_MM] at hs
    rw [min_def] at hs
    norm_num at hs

/-- C3, amended: the embedder hard-codes the Fixed-fit strategy.
`convert_image_to_pdf` takes no strategy input, and for every image it
produces the constant page size with the fixed translate-(0,0), scale-1.0,
300-dpi transform; Native-size-page and Centered-fit placements are never
produced when they differ from that. -/
theorem placement_strategy_hard_coded (img : ImageInfo) :
    (convert_image_to_pdf img).pageWidthMm = PAGE_WIDTH_MM ∧
    (convert_image_to_pdf img).pageHeightMm = PAGE_HEIGHT_MM ∧
    (convert_image_to_pdf img).transform = fixedTransform :=
  ⟨rfl, rfl, rfl⟩

/-- C4: a failing Get-Printer-Attributes transport send or a non-success
attributes status makes the program return the error immediately, after
exactly one query, without building or sending any Print-Job; and a failing
Print-Job transport send propagates its error immediately after exactly one
Print-Job send, with no internal retry of either request. -/
theorem errors_propagate_without_retry (save : PdfPage → List Nat)
    (inp : MainInputs) (t : Transport) (fs : FileSystem) :
    (∀ e, t.attrResponse = Except.error e →
      runMain save inp t fs =
        ⟨Except.error (SessionError.transport e), 1, 0, false, false, none⟩) ∧
    (∀ r, t.attrResponse = Except.ok r → is_success r.statusCode = false →
      runMain save inp t fs =
        ⟨Except.error (SessionError.nonSuccessStatus r.statusCode),
         1, 0, false, false, none⟩) ∧
    (∀ r e, t.attrResponse = Except.ok r → is_success r.statusCode = true →
      t.jobResponse = Except.error e →
      (runMain save inp t fs).result = Except.error (SessionError.transport e) ∧
      (runMain save inp t fs).printJobsSent = 1 ∧
      (runMain save inp t fs).attrQueriesSent = 1) := by
  refine ⟨?_, ?_, ?_⟩
  · intro e he
    simp [runMain, get_printer_attributes, he]
  · intro r hr hf
    simp [runMain, get_printer_attributes, hr, hf]
  · intro r e hr hs hj
    simp [runMain, get_printer_attributes, hr, hs, hj, create_payload_from_pdf]

/-- Witness for C4 at the concrete transport answering the attributes query
with server-error 0x0500. -/
theorem errors_propagate_without_retry_witness :
    transportAttrErrorStatus.attrResponse = Except.ok ⟨0x0500, []⟩ ∧
    is_success 0x0500 = false ∧
    runMain sampleSave sampleInputs transportAttrErrorStatus [] =
      ⟨Except.error (SessionError.nonSuccessStatus 0x0500),
       1, 0, false, false, none⟩ :=
  ⟨rfl, by decide,
    (errors_propagate_without_retry sampleSave sampleInputs
      transportAttrErrorStatus []).2.1 ⟨0x0500, []⟩ rfl (by decide)⟩

/-- C5, counterexample: there is no execution that builds the Print-Job
while having sent no Get-Printer-Attributes query; the query at
`src/main.rs:29` is unconditional. -/
theorem attr_query_not_skippable :
    ¬ ∃ (save : PdfPage → List Nat) (inp : MainInputs) (t : Transport)
        (fs : FileSystem),
      (runMain save inp t fs).printJobBuilt = true ∧
      (runMain save inp t fs).attrQueriesSent = 0 := by
  rintro ⟨save, inp, t, fs, -, hq⟩
  rw [runMain_attrQueries] at hq
  exact absurd hq one_ne_zero

/-- C5, amended: the Get-Printer-Attributes step is mandatory, not optional:
every run of the program sends exactly one such query, and the Print-Job is
built only in runs whose query came back with a success status. -/
theorem attr_query_mandatory (save : PdfPage → List Nat) (inp : MainInputs)
    (t : Transport) (fs : FileSystem) :
    (runMain save inp t fs).attrQueriesSent = 1 ∧
    ((runMain save inp t fs).printJobBuilt = true →
      ∃ r, t.attrResponse = Except.ok r ∧ is_success r.statusCode = true) := by
  refine ⟨runMain_attrQueries save inp t fs, ?_⟩
  intro hb
  rcases t with ⟨ta, tj⟩
  rcases ta with e | r
  · simp [runMain, get_printer_attributes] at hb
  · by_cases hs : is_success r.statusCode
    · exact ⟨r, rfl, hs⟩
    · simp [runMain, get_printer_attributes, hs] at hb

/-- Witness for C5's amended statement at a concrete successful run. -/
theorem attr_query_mandatory_witness :
    (runMain sampleSave sampleInputs transportOk []).printJobBuilt = true ∧
    (runMain sampleSave sampleInputs transportOk []).attrQueriesSent = 1 ∧
    (∃ r, transportOk.attrResponse = Except.ok r ∧
      is_success r.statusCode = true) :=
  ⟨by decide,
   (attr_query_mandatory sampleSave sampleInputs transportOk []).1,
   (attr_query_mandatory sampleSave sampleInputs transportOk []).2 (by decide)⟩

/-- C6: for every PDF byte sequence and file-system state, the payload built
with `use_file = true` (write to and re-read `tmp.pdf`) and the payload
built with `use_file = false` (in-memory buffer) both deliver exactly the
input bytes as the document body. -/
theorem payload_file_memory_equivalent (pdf_data : List Nat) (fs : FileSystem) :
    (create_payload_from_pdf pdf_data true fs).map (fun p => p.1.bytes) =
      Except.ok pdf_data ∧
    (create_payload_from_pdf pdf_data false fs).map (fun p => p.1.bytes) =
      Except.ok pdf_data := by
  constructor
  · simp [create_payload_from_pdf, fsWrite, fsRead, List.find?, Except.map]
  · rfl

/-- C7: building and encoding the Print-Job operation is deterministic:
identical inputs (printer URI, document bytes, file name, USER value and
request id) produce byte-identical encoded requests. -/
theorem print_job_build_deterministic (i j : PrintJobInputs) (h : i = j) :
    encodeIppRequest (buildPrintJobRequest i) =
      encodeIppRequest (buildPrintJobRequest j) := by
  rw [h]

/-- Witness for C7 at a concrete input. -/
theorem print_job_build_deterministic_witness :
    sampleJobInputs = sampleJobInputs ∧
    encodeIppRequest (buildPrintJobRequest sampleJobInputs) =
      encodeIppRequest (buildPrintJobRequest sampleJobInputs) :=
  ⟨rfl, print_job_build_deterministic sampleJobInputs sampleJobInputs rfl⟩

/-- C8: `is_success` is a pure function of the status code and holds exactly
on the range 0x0000 to 0x00FF. -/
theorem is_success_iff_range (code : Nat) :
    is_success code = true ↔ code ≤ 0xFF := by
  simp only [is_success, beq_iff_eq]
  omega

/-- C9: when the input file name ends in none of `.jpg`, `.jpeg`, `.png`,
no image-to-PDF conversion is performed and the document bytes carried by
the built Print-Job request are exactly the file's contents, while the
request still labels them `document-format = application/pdf`. -/
theorem non_image_file_passthrough (save : PdfPage → List Nat)
    (inp : MainInputs) (t : Transport) (fs : FileSystem) (r : IppResponseModel)
    (hname : isImageFile inp.fileName = false)
    (hattr : t.attrResponse = Except.ok r)
    (hs : is_success r.statusCode = true) :
    (runMain save inp t fs).conversionPerformed = false ∧
    ∃ req, (runMain save inp t fs).sentJobRequest = some req ∧
      req.documentBytes = inp.fileContents ∧
      ("document-format", IppValue.MimeMediaType "application/pdf")
        ∈ req.extraAttributes := by
  have hmb : mainDocumentBytes inp.fileName inp.fileContents
      (save (convert_image_to_pdf inp.decodedImage)) = (inp.fileContents, false) := by
    simp [mainDocumentBytes, hname]
  constructor
  · rcases hjr : t.jobResponse with e | r2 <;>
      simp [runMain, get_printer_attributes, hattr, hs, hjr,
        create_payload_from_pdf, hmb]
  · refine ⟨buildPrintJobRequest
      ⟨inp.printerUri, inp.fileContents, inp.fileName, inp.userEnv,
       inp.requestId⟩, ?_, rfl, ?_⟩
    · rcases hjr : t.jobResponse with e | r2 <;>
        simp [runMain, get_printer_attributes, hattr, hs, hjr,
          create_payload_from_pdf, hmb]
    · simp [buildPrintJobRequest, mainJobAttributes]

/-- Witness for C9 at a run on the five-byte file `document.pdf`. -/
theorem non_image_file_passthrough_witness :
    isImageFile samplePdfInputs.fileName = false ∧
    transportOk.attrResponse = Except.ok ⟨0, []⟩ ∧
    is_success 0 = true ∧
    ((runMain sampleSave samplePdfInputs transportOk []).conversionPerformed
        = false ∧
     ∃ req, (runMain sampleSave samplePdfInputs transportOk []).sentJobRequest
         = some req ∧
       req.documentBytes = samplePdfInputs.fileContents ∧
       ("document-format", IppValue.MimeMediaType "application/pdf")
         ∈ req.extraAttributes) :=
  ⟨by decide, rfl, by decide,
    non_image_file_passthrough sampleSave samplePdfInputs transportOk []
      ⟨0, []⟩ (by decide) rfl (by decide)⟩

/-- C10: the requesting user name is the `USER` environment value when it is
present (and valid Unicode), and the fixed fallback `"noname"` otherwise. -/
theorem requesting_user_name_fallback (uri : String) (doc : List Nat)
    (file : String) (rid : Nat) :
    (buildPrintJobRequest ⟨uri, doc, file, none, rid⟩).userName = "noname" ∧
    ∀ u, (buildPrintJobRequest ⟨uri, doc, file, some u, rid⟩).userName = u :=
  ⟨rfl, fun _ => rfl⟩

end PocRustIpp
